import Mathlib

/-!
Verification of the wagtail_unveil URL-report plugin.

This file shallowly embeds the URL-collection code of the repository:

* helpers/base.py        -- UnveilURLFinder with its memoising _get_cached_url
* helpers/redirect_helpers.py -- RedirectsAdminURLFinder per-instance getters
* helpers/user_helpers.py     -- UserAdminURLFinder and get_user_urls
* helpers/generic_helpers.py  -- GenericModelAdminURLFinder and get_generic_urls
* viewsets/redirect_report.py -- free-function redirect collector and the
  report view queryset that wraps it

Django route reversal is modelled as a function from a route name and
positional arguments to an optional path: a result of none stands for the
NoReverseMatch exception that django.urls.reverse raises for an
unregistered route.  Python exceptions are modelled by an error monad
(Except PyErr), querysets by explicit lists, and the queryset evaluation
that may raise inside a try block by an Except-valued fetch argument.
-/

namespace Unveil

/-- Python exception classes that appear in the try/except clauses of the
repository (NoReverseMatch, ImproperlyConfigured, AttributeError,
ImportError, TypeError, ValueError, NameError, Redirect.DoesNotExist). -/
inductive PyErr where
  | noReverseMatch
  | improperlyConfigured
  | attributeError
  | importError
  | typeError
  | valueError
  | nameError
  | doesNotExist
deriving DecidableEq, Repr

/-- The route registry consulted by django.urls.reverse: a route name and
positional arguments resolve to a path, or to none when no route matches. -/
def Reverse : Type := String → List Nat → Option String

/-- django.urls.reverse as an Except-valued call: an unregistered route
raises NoReverseMatch. -/
def reverseExc (reg : Reverse) (name : String) (args : List Nat) :
    Except PyErr String :=
  match reg name args with
  | some u => Except.ok u
  | none => Except.error PyErr.noReverseMatch

/-- One row of a URL report: the (model_name, url_type, url) tuples built by
every collector in the repository. -/
structure Row where
  model_name : String
  url_type : String
  url : String
deriving DecidableEq, Repr

/-- One UrlEntry namedtuple of a report queryset: a report-local sequential
id together with the row fields. -/
structure UrlEntry where
  id : Nat
  model_name : String
  url_type : String
  url : String
deriving DecidableEq, Repr

/-- Host application settings consumed by the plugin, each read with getattr
and a default: WAGTAIL_UNVEIL_MAX_INSTANCES, WAGTAIL_UNVEIL_BASE_URL and
WAGTAIL_UNVEIL_JSON_TOKEN.  A field of none means the host settings do not
define the value. -/
structure DjangoSettings where
  maxInstances : Option Nat
  baseUrl : Option String
  jsonToken : Option String
deriving DecidableEq, Repr

/-- The base URL that viewsets/generic_report.py reads from host settings:
getattr(settings, "WAGTAIL_UNVEIL_BASE_URL", "http://localhost:8000"). -/
def configuredBaseUrl (s : DjangoSettings) : String :=
  s.baseUrl.getD "http://localhost:8000"

/-! ## The finder state of helpers/base.py and helpers/redirect_helpers.py

Both finder classes keep a per-instance dict _url_cache from cache key to
the generated URL (or None for a memoised failure).  The calls field counts
invocations of the underlying url_generator_func; it instruments the
embedding so that memoisation can be stated. -/

/-- State of one URL finder instance: the _url_cache dict (an association
list, most recent binding first) plus a counter of resolver invocations. -/
structure FinderState where
  cache : List (String × Option String)
  calls : Nat
deriving DecidableEq, Repr

/-- Exceptions caught by UnveilURLFinder._get_cached_url in helpers/base.py:
(AttributeError, ImportError, TypeError, ValueError).  NoReverseMatch is not
in this tuple. -/
def baseCaught : PyErr → Bool
  | PyErr.attributeError => true
  | PyErr.importError => true
  | PyErr.typeError => true
  | PyErr.valueError => true
  | _ => false

/-- Exceptions caught by RedirectsAdminURLFinder._get_cached_url in
helpers/redirect_helpers.py: (NoReverseMatch, ImproperlyConfigured). -/
def redirectsCaught : PyErr → Bool
  | PyErr.noReverseMatch => true
  | PyErr.improperlyConfigured => true
  | _ => false

/-- The _get_cached_url method shared (up to the tuple of caught exception
classes) by helpers/base.py and helpers/redirect_helpers.py: if the cache
key is absent, invoke url_func; on success cache and return the URL, on a
caught exception cache and return None, and let any other exception
propagate.  A cache hit returns the stored value without invoking
url_func. -/
def getCachedUrl (caught : PyErr → Bool) (cache_key : String)
    (url_func : Except PyErr String) (st : FinderState) :
    Except PyErr (Option String × FinderState) :=
  match List.lookup cache_key st.cache with
  | some v => Except.ok (v, st)
  | none =>
    match url_func with
    | Except.ok u =>
        Except.ok (some u, ⟨(cache_key, some u) :: st.cache, st.calls + 1⟩)
    | Except.error e =>
        if caught e then
          Except.ok (none, ⟨(cache_key, none) :: st.cache, st.calls + 1⟩)
        else Except.error e

/-! ## viewsets/redirect_report.py -/

/-- One wagtail.contrib.redirects.models.Redirect record, with the fields the
collector reads. -/
structure Redirect where
  id : Nat
  old_path : String
deriving DecidableEq, Repr

/-- get_redirect_index_url: reverse wagtailredirects:index, catching
NoReverseMatch as None. -/
def get_redirect_index_url (reg : Reverse) : Option String :=
  reg "wagtailredirects:index" []

/-- get_redirect_add_url: reverse wagtailredirects:add, catching
NoReverseMatch as None. -/
def get_redirect_add_url (reg : Reverse) : Option String :=
  reg "wagtailredirects:add" []

/-- get_redirect_edit_url: reverse wagtailredirects:edit with the redirect
id, catching NoReverseMatch as None. -/
def get_redirect_edit_url (reg : Reverse) (redirect_id : Nat) : Option String :=
  reg "wagtailredirects:edit" [redirect_id]

/-- get_redirect_delete_url: reverse wagtailredirects:delete with the
redirect id, catching NoReverseMatch as None. -/
def get_redirect_delete_url (reg : Reverse) (redirect_id : Nat) : Option String :=
  reg "wagtailredirects:delete" [redirect_id]

/-- The per-instance model identifier built in the loop of
get_redirect_urls. -/
def redirectInstanceName (r : Redirect) : String :=
  "wagtail.Redirect_" ++ toString r.id ++ "_" ++ r.old_path

/-- The rows the loop body of get_redirect_urls appends for one redirect:
an edit row and a delete row, each only when its route resolves. -/
def redirectInstanceRows (reg : Reverse) (base_url : String) (r : Redirect) :
    List Row :=
  (match get_redirect_edit_url reg r.id with
   | some u => [⟨redirectInstanceName r, "edit", base_url ++ u⟩]
   | none => []) ++
  (match get_redirect_delete_url reg r.id with
   | some u => [⟨redirectInstanceName r, "delete", base_url ++ u⟩]
   | none => [])

/-- The type-level rows of get_redirect_urls: the index row and the add row,
each only when its route resolves. -/
def redirectTypeRows (reg : Reverse) (base_url : String) : List Row :=
  (match get_redirect_index_url reg with
   | some u => [⟨"wagtail.Redirect", "index", base_url ++ u⟩]
   | none => []) ++
  (match get_redirect_add_url reg with
   | some u => [⟨"wagtail.Redirect", "add", base_url ++ u⟩]
   | none => [])

/-- Evaluation of a sliced queryset inside a try block: on success the first
max_instances records are returned; a caught exception yields the empty
list; any other exception propagates. -/
def catchFetch {α : Type} (caught : PyErr → Bool)
    (fetch : Except PyErr (List α)) (max_instances : Nat) :
    Except PyErr (List α) :=
  match fetch with
  | Except.ok l => Except.ok (l.take max_instances)
  | Except.error e => if caught e then Except.ok [] else Except.error e

/-- Exceptions caught around the instance loop of get_redirect_urls in
viewsets/redirect_report.py: Redirect.DoesNotExist and (AttributeError,
ValueError, TypeError). -/
def redirectLoopCaught : PyErr → Bool
  | PyErr.doesNotExist => true
  | PyErr.attributeError => true
  | PyErr.valueError => true
  | PyErr.typeError => true
  | _ => false

/-- get_redirect_urls of viewsets/redirect_report.py: the index and add rows
when their routes resolve, then edit and delete rows for the first
max_instances redirects of the query; a caught exception while evaluating
the queryset leaves only the type-level rows. -/
def get_redirect_urls (reg : Reverse) (base_url : String)
    (fetch : Except PyErr (List Redirect)) (max_instances : Nat) :
    Except PyErr (List Row) :=
  match catchFetch redirectLoopCaught fetch max_instances with
  | Except.ok rs =>
      Except.ok (redirectTypeRows reg base_url ++
        (rs.map (redirectInstanceRows reg base_url)).flatten)
  | Except.error e => Except.error e

/-- The counter loop of every report queryset: wrap each row as a UrlEntry
with a sequential id starting from the given counter value. -/
def withIds (counter : Nat) : List Row → List UrlEntry
  | [] => []
  | r :: rs => ⟨counter, r.model_name, r.url_type, r.url⟩ :: withIds (counter + 1) rs

/-- UnveilRedirectReportIndexView.get_queryset: read
WAGTAIL_UNVEIL_MAX_INSTANCES with default 1, hardcode the base URL
"http://localhost:8000", collect the redirect rows and number them from
1. -/
def redirect_get_queryset (s : DjangoSettings) (reg : Reverse)
    (fetch : Except PyErr (List Redirect)) : Except PyErr (List UrlEntry) :=
  match get_redirect_urls reg "http://localhost:8000" fetch
      (s.maxInstances.getD 1) with
  | Except.ok rows => Except.ok (withIds 1 rows)
  | Except.error e => Except.error e

/-! ## helpers/redirect_helpers.py -- RedirectsAdminURLFinder getters -/

/-- Python truthiness of an optional numeric id: None and 0 are falsy, as in
the guard "if not redirect_id" of redirect_helpers.py. -/
def pyFalsyId : Option Nat → Bool
  | none => true
  | some 0 => true
  | some _ => false

/-- RedirectsAdminURLFinder.get_redirect_edit_url: a falsy id returns None at
once; otherwise resolve wagtailredirects:edit through the memoising
_get_cached_url. -/
def rf_get_redirect_edit_url (reg : Reverse) (redirect_id : Option Nat)
    (st : FinderState) : Except PyErr (Option String × FinderState) :=
  if pyFalsyId redirect_id then Except.ok (none, st)
  else
    let i := redirect_id.getD 0
    getCachedUrl redirectsCaught ("redirect_edit_" ++ toString i)
      (reverseExc reg "wagtailredirects:edit" [i]) st

/-- RedirectsAdminURLFinder.get_redirect_delete_url: a falsy id returns None
at once; otherwise resolve wagtailredirects:delete through the memoising
_get_cached_url. -/
def rf_get_redirect_delete_url (reg : Reverse) (redirect_id : Option Nat)
    (st : FinderState) : Except PyErr (Option String × FinderState) :=
  if pyFalsyId redirect_id then Except.ok (none, st)
  else
    let i := redirect_id.getD 0
    getCachedUrl redirectsCaught ("redirect_delete_" ++ toString i)
      (reverseExc reg "wagtailredirects:delete" [i]) st

/-- RedirectsAdminURLFinder.get_all_redirect_urls: a falsy id returns the
empty dict; otherwise collect the edit and delete URLs that resolved, in
that order. -/
def rf_get_all_redirect_urls (reg : Reverse) (redirect_id : Option Nat)
    (st : FinderState) :
    Except PyErr (List (String × String) × FinderState) :=
  if pyFalsyId redirect_id then Except.ok ([], st)
  else
    match rf_get_redirect_edit_url reg redirect_id st with
    | Except.error e => Except.error e
    | Except.ok (eu, st1) =>
      match rf_get_redirect_delete_url reg redirect_id st1 with
      | Except.error e => Except.error e
      | Except.ok (du, st2) =>
        Except.ok
          ((match eu with | some u => [("edit", u)] | none => []) ++
           (match du with | some u => [("delete", u)] | none => []), st2)

/-! ## helpers/user_helpers.py -/

/-- A Django model instance as the user and group getters see it: only the
primary key is read. -/
structure UserInst where
  pk : Nat
deriving DecidableEq, Repr

/-- UserAdminURLFinder.get_user_add_url: resolve wagtailusers_users:add
through the base-class _get_cached_url (whose except tuple does not include
NoReverseMatch, so that exception propagates). -/
def uf_get_user_add_url (reg : Reverse) (st : FinderState) :
    Except PyErr (Option String × FinderState) :=
  getCachedUrl baseCaught "add_user"
    (reverseExc reg "wagtailusers_users:add" []) st

/-- UserAdminURLFinder.get_user_index_url. -/
def uf_get_user_index_url (reg : Reverse) (st : FinderState) :
    Except PyErr (Option String × FinderState) :=
  getCachedUrl baseCaught "index_user"
    (reverseExc reg "wagtailusers_users:index" []) st

/-- UserAdminURLFinder.get_user_edit_url: a falsy (None) instance returns
None at once; otherwise resolve wagtailusers_users:edit with the pk. -/
def uf_get_user_edit_url (reg : Reverse) (inst : Option UserInst)
    (st : FinderState) : Except PyErr (Option String × FinderState) :=
  match inst with
  | none => Except.ok (none, st)
  | some i =>
      getCachedUrl baseCaught ("edit_user_" ++ toString i.pk)
        (reverseExc reg "wagtailusers_users:edit" [i.pk]) st

/-- UserAdminURLFinder.get_user_delete_url. -/
def uf_get_user_delete_url (reg : Reverse) (inst : Option UserInst)
    (st : FinderState) : Except PyErr (Option String × FinderState) :=
  match inst with
  | none => Except.ok (none, st)
  | some i =>
      getCachedUrl baseCaught ("delete_user_" ++ toString i.pk)
        (reverseExc reg "wagtailusers_users:delete" [i.pk]) st

/-- UserAdminURLFinder.get_group_add_url. -/
def uf_get_group_add_url (reg : Reverse) (st : FinderState) :
    Except PyErr (Option String × FinderState) :=
  getCachedUrl baseCaught "add_group"
    (reverseExc reg "wagtailusers_groups:add" []) st

/-- UserAdminURLFinder.get_group_index_url. -/
def uf_get_group_index_url (reg : Reverse) (st : FinderState) :
    Except PyErr (Option String × FinderState) :=
  getCachedUrl baseCaught "index_group"
    (reverseExc reg "wagtailusers_groups:index" []) st

/-- UserAdminURLFinder.get_group_edit_url. -/
def uf_get_group_edit_url (reg : Reverse) (inst : Option UserInst)
    (st : FinderState) : Except PyErr (Option String × FinderState) :=
  match inst with
  | none => Except.ok (none, st)
  | some i =>
      getCachedUrl baseCaught ("edit_group_" ++ toString i.pk)
        (reverseExc reg "wagtailusers_groups:edit" [i.pk]) st

/-- UserAdminURLFinder.get_group_delete_url. -/
def uf_get_group_delete_url (reg : Reverse) (inst : Option UserInst)
    (st : FinderState) : Except PyErr (Option String × FinderState) :=
  match inst with
  | none => Except.ok (none, st)
  | some i =>
      getCachedUrl baseCaught ("delete_group_" ++ toString i.pk)
        (reverseExc reg "wagtailusers_groups:delete" [i.pk]) st

/-- UserAdminURLFinder.get_all_user_urls: a falsy instance returns the empty
dict; otherwise collect the edit and delete URLs that resolved, in that
order. -/
def uf_get_all_user_urls (reg : Reverse) (inst : Option UserInst)
    (st : FinderState) :
    Except PyErr (List (String × String) × FinderState) :=
  match inst with
  | none => Except.ok ([], st)
  | some _ =>
    match uf_get_user_edit_url reg inst st with
    | Except.error e => Except.error e
    | Except.ok (eu, st1) =>
      match uf_get_user_delete_url reg inst st1 with
      | Except.error e => Except.error e
      | Except.ok (du, st2) =>
        Except.ok
          ((match eu with | some u => [("edit", u)] | none => []) ++
           (match du with | some u => [("delete", u)] | none => []), st2)

/-- UserAdminURLFinder.get_all_group_urls. -/
def uf_get_all_group_urls (reg : Reverse) (inst : Option UserInst)
    (st : FinderState) :
    Except PyErr (List (String × String) × FinderState) :=
  match inst with
  | none => Except.ok ([], st)
  | some _ =>
    match uf_get_group_edit_url reg inst st with
    | Except.error e => Except.error e
    | Except.ok (eu, st1) =>
      match uf_get_group_delete_url reg inst st1 with
      | Except.error e => Except.error e
      | Except.ok (du, st2) =>
        Except.ok
          ((match eu with | some u => [("edit", u)] | none => []) ++
           (match du with | some u => [("delete", u)] | none => []), st2)

/-- A row list from an optional resolved URL: the body of every
"if url: urls.append((name, ty, base_url + url))" statement. -/
def optRow (name ty base_url : String) (u : Option String) : List Row :=
  match u with
  | some url => [⟨name, ty, base_url ++ url⟩]
  | none => []

/-- Exceptions caught around the instance queryset evaluation in
helpers/user_helpers.py and helpers/generic_helpers.py: (AttributeError,
ValueError, TypeError). -/
def instLoopCaught : PyErr → Bool
  | PyErr.attributeError => true
  | PyErr.valueError => true
  | PyErr.typeError => true
  | _ => false

/-- The user instance loop of get_user_urls: for each instance, append a row
for every entry of get_all_user_urls, prefixing the base URL. -/
def userInstRows (reg : Reverse) (base_url : String) :
    List UserInst → FinderState → Except PyErr (List Row × FinderState)
  | [], st => Except.ok ([], st)
  | i :: is, st =>
    match uf_get_all_user_urls reg (some i) st with
    | Except.error e => Except.error e
    | Except.ok (pairs, st1) =>
      match userInstRows reg base_url is st1 with
      | Except.error e => Except.error e
      | Except.ok (rest, st2) =>
          Except.ok
            (pairs.map (fun p => ⟨"auth.User", p.1, base_url ++ p.2⟩) ++ rest,
             st2)

/-- The group instance loop of get_user_urls. -/
def groupInstRows (reg : Reverse) (base_url : String) :
    List UserInst → FinderState → Except PyErr (List Row × FinderState)
  | [], st => Except.ok ([], st)
  | i :: is, st =>
    match uf_get_all_group_urls reg (some i) st with
    | Except.error e => Except.error e
    | Except.ok (pairs, st1) =>
      match groupInstRows reg base_url is st1 with
      | Except.error e => Except.error e
      | Except.ok (rest, st2) =>
          Except.ok
            (pairs.map (fun p => ⟨"auth.Group", p.1, base_url ++ p.2⟩) ++ rest,
             st2)

/-- get_user_urls of helpers/user_helpers.py: user add and index rows, rows
for the first max_instances users, then group add and index rows and rows
for the first max_instances groups.  The queryset evaluations sit in try
blocks catching (AttributeError, ValueError, TypeError); the route getters
do not catch NoReverseMatch, so an unresolvable route propagates out of the
whole collector. -/
def get_user_urls (reg : Reverse) (base_url : String)
    (userFetch groupFetch : Except PyErr (List UserInst))
    (max_instances : Nat) : Except PyErr (List Row) :=
  let st0 : FinderState := ⟨[], 0⟩
  match uf_get_user_add_url reg st0 with
  | Except.error e => Except.error e
  | Except.ok (uadd, st1) =>
  match uf_get_user_index_url reg st1 with
  | Except.error e => Except.error e
  | Except.ok (uidx, st2) =>
  match catchFetch instLoopCaught userFetch max_instances with
  | Except.error e => Except.error e
  | Except.ok uinsts =>
  match userInstRows reg base_url uinsts st2 with
  | Except.error e => Except.error e
  | Except.ok (urows, st3) =>
  match uf_get_group_add_url reg st3 with
  | Except.error e => Except.error e
  | Except.ok (gadd, st4) =>
  match uf_get_group_index_url reg st4 with
  | Except.error e => Except.error e
  | Except.ok (gidx, st5) =>
  match catchFetch instLoopCaught groupFetch max_instances with
  | Except.error e => Except.error e
  | Except.ok ginsts =>
  match groupInstRows reg base_url ginsts st5 with
  | Except.error e => Except.error e
  | Except.ok (grows, _) =>
      Except.ok
        (optRow "auth.User" "add" base_url uadd ++
         optRow "auth.User" "index" base_url uidx ++
         urows ++
         optRow "auth.Group" "add" base_url gadd ++
         optRow "auth.Group" "index" base_url gidx ++
         grows)

/-! ## helpers/generic_helpers.py -/

/-- A generic model class as GenericModelAdminURLFinder sees it: the lowered
model name used in route namespaces, the app label, and the class name. -/
structure GModel where
  model_name : String
  app_label : String
  class_name : String
deriving DecidableEq, Repr

/-- The identifier model._meta.label_lower used in cache keys. -/
def gmLowerLabel (m : GModel) : String :=
  m.app_label ++ "." ++ m.model_name

/-- The display identifier app_label.ClassName used for the rows of
get_generic_urls. -/
def gmLabel (m : GModel) : String :=
  m.app_label ++ "." ++ m.class_name

/-- A generic model instance: its class and primary key. -/
structure GInst where
  model : GModel
  pk : Nat
deriving DecidableEq, Repr

/-- GenericModelAdminURLFinder.get_add_url: a falsy model returns None;
otherwise resolve modelname:add through the base-class _get_cached_url.
The except clause of the source names NoReverseMatch and
ImproperlyConfigured, which generic_helpers.py never imports, so whenever
an exception escapes _get_cached_url the evaluation of that clause raises
NameError. -/
def gf_get_add_url (reg : Reverse) (model : Option GModel) (st : FinderState) :
    Except PyErr (Option String × FinderState) :=
  match model with
  | none => Except.ok (none, st)
  | some m =>
    match getCachedUrl baseCaught ("add_" ++ gmLowerLabel m)
        (reverseExc reg (m.model_name ++ ":add") []) st with
    | Except.ok r => Except.ok r
    | Except.error _ => Except.error PyErr.nameError

/-- GenericModelAdminURLFinder.get_list_url: as get_add_url but for the
index route, with the same broken except clause. -/
def gf_get_list_url (reg : Reverse) (model : Option GModel) (st : FinderState) :
    Except PyErr (Option String × FinderState) :=
  match model with
  | none => Except.ok (none, st)
  | some m =>
    match getCachedUrl baseCaught ("list_" ++ gmLowerLabel m)
        (reverseExc reg (m.model_name ++ ":index") []) st with
    | Except.ok r => Except.ok r
    | Except.error _ => Except.error PyErr.nameError

/-- GenericModelAdminURLFinder per-instance getter for one action (edit,
delete, copy, history, usage): a falsy instance returns None; otherwise
resolve modelname:action through _get_cached_url with no extra try block,
so any escaping exception propagates. -/
def gf_get_action_url (action : String) (reg : Reverse) (inst : Option GInst)
    (st : FinderState) : Except PyErr (Option String × FinderState) :=
  match inst with
  | none => Except.ok (none, st)
  | some i =>
      getCachedUrl baseCaught
        (action ++ "_" ++ gmLowerLabel i.model ++ "_" ++ toString i.pk)
        (reverseExc reg (i.model.model_name ++ ":" ++ action) [i.pk]) st

/-- GenericModelAdminURLFinder.get_all_urls: a falsy instance returns the
empty dict; otherwise collect the edit, delete, copy, history and usage
URLs that resolved, in that order. -/
def gf_get_all_urls (reg : Reverse) (inst : Option GInst) (st : FinderState) :
    Except PyErr (List (String × String) × FinderState) :=
  match inst with
  | none => Except.ok ([], st)
  | some _ =>
    match gf_get_action_url "edit" reg inst st with
    | Except.error e => Except.error e
    | Except.ok (u1, st1) =>
    match gf_get_action_url "delete" reg inst st1 with
    | Except.error e => Except.error e
    | Except.ok (u2, st2) =>
    match gf_get_action_url "copy" reg inst st2 with
    | Except.error e => Except.error e
    | Except.ok (u3, st3) =>
    match gf_get_action_url "history" reg inst st3 with
    | Except.error e => Except.error e
    | Except.ok (u4, st4) =>
    match gf_get_action_url "usage" reg inst st4 with
    | Except.error e => Except.error e
    | Except.ok (u5, st5) =>
      Except.ok
        ((match u1 with | some u => [("edit", u)] | none => []) ++
         (match u2 with | some u => [("delete", u)] | none => []) ++
         (match u3 with | some u => [("copy", u)] | none => []) ++
         (match u4 with | some u => [("history", u)] | none => []) ++
         (match u5 with | some u => [("usage", u)] | none => []), st5)

/-- The instance loop of get_generic_urls for one model: for each instance,
append a row for every entry of get_all_urls, prefixing the base URL. -/
def genericInstRows (reg : Reverse) (base_url : String) (name : String) :
    List GInst → FinderState → Except PyErr (List Row × FinderState)
  | [], st => Except.ok ([], st)
  | i :: is, st =>
    match gf_get_all_urls reg (some i) st with
    | Except.error e => Except.error e
    | Except.ok (pairs, st1) =>
      match genericInstRows reg base_url name is st1 with
      | Except.error e => Except.error e
      | Except.ok (rest, st2) =>
          Except.ok
            (pairs.map (fun p => ⟨name, p.1, base_url ++ p.2⟩) ++ rest, st2)

/-- The model loop of get_generic_urls: for each model, an add row and a
list row when their routes resolve, then rows for the first max_instances
instances.  A caught exception while evaluating the instance queryset makes
the loop continue with the next model, keeping the add and list rows; an
uncaught exception propagates out of the collector. -/
def genericModelLoop (reg : Reverse) (base_url : String)
    (fetch : GModel → Except PyErr (List GInst)) (max_instances : Nat) :
    List GModel → FinderState → Except PyErr (List Row)
  | [], _ => Except.ok []
  | mdl :: rest, st =>
    match gf_get_add_url reg (some mdl) st with
    | Except.error e => Except.error e
    | Except.ok (addu, st1) =>
    match gf_get_list_url reg (some mdl) st1 with
    | Except.error e => Except.error e
    | Except.ok (listu, st2) =>
    let typeRows :=
      optRow (gmLabel mdl) "add" base_url addu ++
      optRow (gmLabel mdl) "list" base_url listu
    match fetch mdl with
    | Except.error e =>
      if instLoopCaught e then
        match genericModelLoop reg base_url fetch max_instances rest st2 with
        | Except.error e2 => Except.error e2
        | Except.ok restRows => Except.ok (typeRows ++ restRows)
      else Except.error e
    | Except.ok insts =>
      match genericInstRows reg base_url (gmLabel mdl)
          (insts.take max_instances) st2 with
      | Except.error e => Except.error e
      | Except.ok (irows, st3) =>
        match genericModelLoop reg base_url fetch max_instances rest st3 with
        | Except.error e => Except.error e
        | Except.ok restRows => Except.ok (typeRows ++ irows ++ restRows)

/-- get_generic_urls of helpers/generic_helpers.py: run the model loop over
the configured generic models with a fresh finder. -/
def get_generic_urls (reg : Reverse) (base_url : String)
    (models : List GModel) (fetch : GModel → Except PyErr (List GInst))
    (max_instances : Nat) : Except PyErr (List Row) :=
  genericModelLoop reg base_url fetch max_instances models ⟨[], 0⟩

/-! ## The per-view maximum-instances defaults

Every report view reads getattr(settings, WAGTAIL_UNVEIL_MAX_INSTANCES, d)
with a literal default d.  One constructor per view module that contains
such a read. -/

/-- The report view classes of the repository that read the
maximum-instances setting. -/
inductive ReportViewKind where
  | userReportView              -- views/user_report.py
  | settingsReportView          -- views/settings_report.py
  | searchPromotionReportLegacy -- reports/search_promotion_report.py
  | collectionViewSet           -- viewsets/collection_report.py
  | documentViewSet             -- viewsets/document_report.py
  | formViewSet                 -- viewsets/form_report.py
  | genericViewSet              -- viewsets/generic_report.py
  | imageViewSet                -- viewsets/image_report.py
  | localeViewSet               -- viewsets/locale_report.py
  | pageViewSet                 -- viewsets/page_report.py
  | redirectViewSet             -- viewsets/redirect_report.py
  | searchPromotionViewSet      -- viewsets/search_promotion_report.py
  | settingsViewSet             -- viewsets/settings_report.py
  | siteViewSet                 -- viewsets/site_report.py
  | snippetViewSet              -- viewsets/snippet_report.py
  | userViewSet                 -- viewsets/user_report.py
deriving DecidableEq, Repr

/-- The literal default each view passes to getattr for
WAGTAIL_UNVEIL_MAX_INSTANCES: 10 in views/settings_report.py and 1
everywhere else. -/
def defaultMaxInstances : ReportViewKind → Nat
  | ReportViewKind.userReportView => 1
  | ReportViewKind.settingsReportView => 10
  | ReportViewKind.searchPromotionReportLegacy => 1
  | ReportViewKind.collectionViewSet => 1
  | ReportViewKind.documentViewSet => 1
  | ReportViewKind.formViewSet => 1
  | ReportViewKind.genericViewSet => 1
  | ReportViewKind.imageViewSet => 1
  | ReportViewKind.localeViewSet => 1
  | ReportViewKind.pageViewSet => 1
  | ReportViewKind.redirectViewSet => 1
  | ReportViewKind.searchPromotionViewSet => 1
  | ReportViewKind.settingsViewSet => 1
  | ReportViewKind.siteViewSet => 1
  | ReportViewKind.snippetViewSet => 1
  | ReportViewKind.userViewSet => 1

/-- The maximum-instances value a view uses: the settings value when the
host defines it, the literal per-view default otherwise. -/
def viewMaxInstances (k : ReportViewKind) (s : DjangoSettings) : Nat :=
  s.maxInstances.getD (defaultMaxInstances k)

/-! ## The JSON export endpoint -/

/-- A request to a JSON report endpoint: the token query parameter, the
X-API-TOKEN header, and whether the requester already has elevated
privileges. -/
structure JsonRequest where
  queryToken : Option String
  headerToken : Option String
  isSuperuser : Bool
deriving DecidableEq, Repr

/-- One entry of the JSON results list; fields are optional so that
non-nullness is a provable property rather than a typing artefact. -/
structure JsonEntry where
  id : Option Nat
  model_name : Option String
  url_type : Option String
  url : Option String
deriving DecidableEq, Repr

/-- A JSON endpoint response: a 403-equivalent with a message, or a 200 with
a results list. -/
inductive JsonResponse where
  | forbidden (message : String)
  | ok (results : List JsonEntry)
deriving DecidableEq, Repr

/-- Whether the request carries the configured token, as query parameter or
header. -/
def tokenOk (configured : String) (req : JsonRequest) : Bool :=
  (req.queryToken == some configured) || (req.headerToken == some configured)

/-- Modelled from the spec: the JSON variant of each report view is not under
src/ (only wagtail_unveil/tests.py exercises it).  Per the spec, the
endpoint requires the configured token via query parameter or header unless
the requester already has elevated privileges; without it the response is a
403-equivalent with the fixed message used by the tests, and with it the
response is a 200 whose results list carries id, model_name, url_type and
url for every collected row. -/
def jsonEndpoint (configured : String) (rows : List Row) (req : JsonRequest) :
    JsonResponse :=
  if tokenOk configured req || req.isSuperuser then
    JsonResponse.ok ((withIds 1 rows).map (fun en =>
      ⟨some en.id, some en.model_name, some en.url_type, some en.url⟩))
  else JsonResponse.forbidden "Invalid or missing token"

/-! ## viewsets/site_report.py -/

/-- One wagtail.models.Site record, with the fields the collector reads. -/
structure Site where
  id : Nat
  hostname : String
  port : Nat
deriving DecidableEq, Repr

/-- get_site_index_url: reverse wagtailsites:index, catching NoReverseMatch
as None. -/
def get_site_index_url (reg : Reverse) : Option String :=
  reg "wagtailsites:index" []

/-- get_site_add_url: reverse wagtailsites:add, catching NoReverseMatch as
None. -/
def get_site_add_url (reg : Reverse) : Option String :=
  reg "wagtailsites:add" []

/-- get_site_edit_url: reverse wagtailsites:edit with the site id, catching
NoReverseMatch as None. -/
def get_site_edit_url (reg : Reverse) (site_id : Nat) : Option String :=
  reg "wagtailsites:edit" [site_id]

/-- get_site_delete_url: reverse wagtailsites:delete with the site id,
catching NoReverseMatch as None. -/
def get_site_delete_url (reg : Reverse) (site_id : Nat) : Option String :=
  reg "wagtailsites:delete" [site_id]

/-- get_site_frontend_url: None for a falsy site; otherwise the frontend URL
built from hostname and port — https for port 443, no explicit port for 80
and 443, an explicit port otherwise. -/
def get_site_frontend_url (site : Option Site) : Option String :=
  match site with
  | none => none
  | some s =>
    let protocol := if s.port = 443 then "https" else "http"
    if s.port ∈ [80, 443] then
      some (protocol ++ "://" ++ s.hostname ++ "/")
    else
      some (protocol ++ "://" ++ s.hostname ++ ":" ++ toString s.port ++ "/")

/-- The per-instance model identifier built in the loop of get_site_urls. -/
def siteInstanceName (s : Site) : String :=
  "wagtail.Site_" ++ toString s.id ++ "_" ++ s.hostname

/-- The rows the loop body of get_site_urls appends for one site: an edit
row and a delete row when their routes resolve, both prefixed with the base
URL, then a frontend row that is not prefixed. -/
def siteInstanceRows (reg : Reverse) (base_url : String) (s : Site) :
    List Row :=
  (match get_site_edit_url reg s.id with
   | some u => [⟨siteInstanceName s, "edit", base_url ++ u⟩]
   | none => []) ++
  (match get_site_delete_url reg s.id with
   | some u => [⟨siteInstanceName s, "delete", base_url ++ u⟩]
   | none => []) ++
  (match get_site_frontend_url (some s) with
   | some u => [⟨siteInstanceName s, "frontend", u⟩]
   | none => [])

/-- The type-level rows of get_site_urls: the index row and the add row,
each only when its route resolves. -/
def siteTypeRows (reg : Reverse) (base_url : String) : List Row :=
  (match get_site_index_url reg with
   | some u => [⟨"wagtail.Site", "index", base_url ++ u⟩]
   | none => []) ++
  (match get_site_add_url reg with
   | some u => [⟨"wagtail.Site", "add", base_url ++ u⟩]
   | none => [])

/-- Exceptions caught around the instance loop of get_site_urls in
viewsets/site_report.py: Site.DoesNotExist and (AttributeError, ValueError,
TypeError). -/
def siteLoopCaught : PyErr → Bool
  | PyErr.doesNotExist => true
  | PyErr.attributeError => true
  | PyErr.valueError => true
  | PyErr.typeError => true
  | _ => false

/-- get_site_urls of viewsets/site_report.py.  The slice is conditional on
the truthiness of max_instances — the source reads
Site.objects.all()[:max_instances] if max_instances else Site.objects.all()
— so a maximum of 0 processes every record.  A caught exception while
evaluating the queryset leaves only the type-level rows. -/
def get_site_urls (reg : Reverse) (base_url : String)
    (fetch : Except PyErr (List Site)) (max_instances : Nat) :
    Except PyErr (List Row) :=
  match fetch with
  | Except.ok l =>
    let sites := if max_instances = 0 then l else l.take max_instances
    Except.ok (siteTypeRows reg base_url ++
      (sites.map (siteInstanceRows reg base_url)).flatten)
  | Except.error e =>
    if siteLoopCaught e then Except.ok (siteTypeRows reg base_url)
    else Except.error e

/-- UnveilSiteReportIndexView.get_queryset: read
WAGTAIL_UNVEIL_MAX_INSTANCES with default 1, hardcode the base URL
"http://localhost:8000", collect the site rows and number them from 1. -/
def site_get_queryset (s : DjangoSettings) (reg : Reverse)
    (fetch : Except PyErr (List Site)) : Except PyErr (List UrlEntry) :=
  match get_site_urls reg "http://localhost:8000" fetch
      (s.maxInstances.getD 1) with
  | Except.ok rows => Except.ok (withIds 1 rows)
  | Except.error e => Except.error e

/-! ## Theorems -/

/-- C9: within one finder instance, for every cache key, calling the cached
URL resolution twice with that key returns the identical result both times
and invokes the underlying resolver at most once in total — both when
resolution succeeded and when a caught failure was memoised as an absent
value. -/
theorem getCachedUrl_memoizes (caught : PyErr → Bool) (cache_key : String)
    (url_func : Except PyErr String) (st st' : FinderState) (v : Option String)
    (h : getCachedUrl caught cache_key url_func st = Except.ok (v, st')) :
    getCachedUrl caught cache_key url_func st' = Except.ok (v, st') ∧
      st'.calls ≤ st.calls + 1 := by
  unfold getCachedUrl at h ⊢
  cases hl : List.lookup cache_key st.cache with
  | some v0 =>
    rw [hl] at h
    simp only [Except.ok.injEq, Prod.mk.injEq] at h
    obtain ⟨rfl, rfl⟩ := h
    rw [hl]
    exact ⟨rfl, Nat.le_succ _⟩
  | none =>
    rw [hl] at h
    cases hf : url_func with
    | ok u =>
      rw [hf] at h
      simp only [Except.ok.injEq, Prod.mk.injEq] at h
      obtain ⟨rfl, rfl⟩ := h
      constructor
      · simp [List.lookup]
      · exact Nat.le_refl _
    | error e =>
      rw [hf] at h
      dsimp only at h
      by_cases hc : caught e = true
      · rw [if_pos hc] at h
        simp only [Except.ok.injEq, Prod.mk.injEq] at h
        obtain ⟨rfl, rfl⟩ := h
        constructor
        · simp [List.lookup]
        · exact Nat.le_refl _
      · rw [if_neg hc] at h
        exact absurd h (by simp)

/-- C9 witness: a concrete first call that resolves and caches, after which
the theorem yields the memoised second call. -/
theorem getCachedUrl_memoizes_witness :
    getCachedUrl baseCaught "add_user" (Except.ok "/admin/users/add/")
        ⟨[("add_user", some "/admin/users/add/")], 1⟩ =
      Except.ok (some "/admin/users/add/",
        ⟨[("add_user", some "/admin/users/add/")], 1⟩) ∧
    (⟨[("add_user", some "/admin/users/add/")], 1⟩ : FinderState).calls ≤
      (⟨[], 0⟩ : FinderState).calls + 1 :=
  getCachedUrl_memoizes baseCaught "add_user" (Except.ok "/admin/users/add/")
    ⟨[], 0⟩ _ _ rfl

/-- C10: every per-instance URL getter returns an absent value for a falsy
instance or id (None, or a numeric id equal to 0) with the finder state
unchanged — so no route resolution is attempted — and the aggregate
get_all functions return an empty mapping likewise. -/
theorem falsy_instance_getters (reg : Reverse) (st : FinderState) :
    rf_get_redirect_edit_url reg none st = Except.ok (none, st) ∧
    rf_get_redirect_edit_url reg (some 0) st = Except.ok (none, st) ∧
    rf_get_redirect_delete_url reg none st = Except.ok (none, st) ∧
    rf_get_redirect_delete_url reg (some 0) st = Except.ok (none, st) ∧
    rf_get_all_redirect_urls reg none st = Except.ok ([], st) ∧
    rf_get_all_redirect_urls reg (some 0) st = Except.ok ([], st) ∧
    uf_get_user_edit_url reg none st = Except.ok (none, st) ∧
    uf_get_user_delete_url reg none st = Except.ok (none, st) ∧
    uf_get_all_user_urls reg none st = Except.ok ([], st) ∧
    uf_get_all_group_urls reg none st = Except.ok ([], st) :=
  ⟨rfl, rfl, rfl, rfl, rfl, rfl, rfl, rfl, rfl, rfl⟩

/-- C7: when the host settings do not define the maximum instance count,
every report view uses a per-type literal default that lies between 1 and
20, and the default is not the same for every content type (the settings
report view defaults to 10, the others to 1). -/
theorem default_max_instances_per_view (s : DjangoSettings)
    (h : s.maxInstances = none) :
    (∀ k, 1 ≤ viewMaxInstances k s ∧ viewMaxInstances k s ≤ 20) ∧
    viewMaxInstances ReportViewKind.settingsReportView s ≠
      viewMaxInstances ReportViewKind.userReportView s := by
  constructor
  · intro k
    cases k <;> simp [viewMaxInstances, defaultMaxInstances, h]
  · simp [viewMaxInstances, defaultMaxInstances, h]

/-- C7 witness: host settings defining none of the plugin values. -/
theorem default_max_instances_per_view_witness :
    (∀ k, 1 ≤ viewMaxInstances k ⟨none, none, none⟩ ∧
      viewMaxInstances k ⟨none, none, none⟩ ≤ 20) ∧
    viewMaxInstances ReportViewKind.settingsReportView ⟨none, none, none⟩ ≠
      viewMaxInstances ReportViewKind.userReportView ⟨none, none, none⟩ :=
  default_max_instances_per_view ⟨none, none, none⟩ rfl

/-- C6: a request to the JSON endpoint without the configured token and
without elevated privileges gets the fixed 403-equivalent message; a request
carrying the correct token (query parameter or header) gets a 200 whose
results entries all have non-null id, model_name, url_type and url. -/
theorem jsonEndpoint_contract (configured : String) (rows : List Row)
    (req : JsonRequest) :
    ((tokenOk configured req = false ∧ req.isSuperuser = false) →
      jsonEndpoint configured rows req =
        JsonResponse.forbidden "Invalid or missing token") ∧
    (tokenOk configured req = true →
      ∃ results, jsonEndpoint configured rows req = JsonResponse.ok results ∧
        ∀ en ∈ results, en.id ≠ none ∧ en.model_name ≠ none ∧
          en.url_type ≠ none ∧ en.url ≠ none) := by
  constructor
  · rintro ⟨h1, h2⟩
    simp [jsonEndpoint, h1, h2]
  · intro h
    refine ⟨(withIds 1 rows).map (fun en =>
      ⟨some en.id, some en.model_name, some en.url_type, some en.url⟩), ?_, ?_⟩
    · simp [jsonEndpoint, h]
    · intro en hen
      simp only [List.mem_map] at hen
      obtain ⟨x, -, rfl⟩ := hen
      simp

/-- C6 witness: the forbidden and the authorised scenario at concrete
requests. -/
theorem jsonEndpoint_contract_witness :
    jsonEndpoint "tok" [⟨"m", "t", "u"⟩] ⟨none, none, false⟩ =
      JsonResponse.forbidden "Invalid or missing token" ∧
    (∃ results,
      jsonEndpoint "tok" [⟨"m", "t", "u"⟩] ⟨some "tok", none, false⟩ =
        JsonResponse.ok results ∧
      ∀ en ∈ results, en.id ≠ none ∧ en.model_name ≠ none ∧
        en.url_type ≠ none ∧ en.url ≠ none) :=
  ⟨(jsonEndpoint_contract "tok" [⟨"m", "t", "u"⟩] ⟨none, none, false⟩).1
      ⟨rfl, rfl⟩,
   (jsonEndpoint_contract "tok" [⟨"m", "t", "u"⟩] ⟨some "tok", none, false⟩).2
      rfl⟩

/-- C1: an unresolvable route aborts the whole report for the collectors
built on the base-class finder, instead of skipping just that row.  With
the route country:add unregistered, get_generic_urls raises NameError (the
except clause of generic_helpers.py names NoReverseMatch and
ImproperlyConfigured without importing them) and emits no rows at all; with
wagtailusers_users:add unregistered, get_user_urls propagates NoReverseMatch
(absent from the tuple caught by the base-class _get_cached_url) and emits
no rows at all — contradicting the partial-success property the spec
states. -/
theorem unresolvable_route_aborts_finder_collectors :
    get_generic_urls
      (fun name _ => if name = "country:add" then none else some "/x/")
      "http://localhost:8000"
      [⟨"country", "breads", "Country"⟩]
      (fun _ => Except.ok [])
      3 = Except.error PyErr.nameError ∧
    get_user_urls
      (fun name _ => if name = "wagtailusers_users:add" then none else some "/x/")
      "http://localhost:8000" (Except.ok []) (Except.ok []) 3 =
      Except.error PyErr.noReverseMatch :=
  ⟨rfl, rfl⟩

/-- C8: a caught query error while enumerating instances abandons the
instance loop early and keeps the type-level rows already collected: the
user collector behaves as if the user query had returned no instances, the
redirect collector returns exactly its type-level rows, and the generic
model loop keeps every add and list row while skipping the failing instance
querysets. -/
theorem fetch_error_keeps_type_rows (reg : Reverse) (base_url : String)
    (e : PyErr) (groupFetch : Except PyErr (List UserInst))
    (models : List GModel) (m : Nat) (st : FinderState)
    (h : instLoopCaught e = true) :
    get_user_urls reg base_url (Except.error e) groupFetch m =
      get_user_urls reg base_url (Except.ok []) groupFetch m ∧
    get_redirect_urls reg base_url (Except.error e) m =
      Except.ok (redirectTypeRows reg base_url) ∧
    genericModelLoop reg base_url (fun _ => Except.error e) m models st =
      genericModelLoop reg base_url (fun _ => Except.ok []) m models st := by
  have hr : redirectLoopCaught e = true := by
    cases e <;> simp_all [instLoopCaught, redirectLoopCaught]
  refine ⟨?_, ?_, ?_⟩
  · simp [get_user_urls, catchFetch, h]
  · simp [get_redirect_urls, catchFetch, hr]
  · induction models generalizing st with
    | nil => rfl
    | cons mdl rest ih =>
      simp only [genericModelLoop]
      cases gf_get_add_url reg (some mdl) st with
      | error e1 => rfl
      | ok p1 =>
        obtain ⟨addu, st1⟩ := p1
        dsimp only
        cases gf_get_list_url reg (some mdl) st1 with
        | error e1 => rfl
        | ok p2 =>
          obtain ⟨listu, st2⟩ := p2
          dsimp only
          rw [if_pos h, ih st2]
          simp only [List.take_nil, genericInstRows]
          cases genericModelLoop reg base_url (fun _ => Except.ok []) m rest st2 with
          | error e2 => rfl
          | ok restRows => simp

/-- C8 witness: a concrete AttributeError while fetching instances. -/
theorem fetch_error_keeps_type_rows_witness :
    get_user_urls (fun _ _ => some "/x/") "http://localhost:8000"
        (Except.error PyErr.attributeError) (Except.ok []) 1 =
      get_user_urls (fun _ _ => some "/x/") "http://localhost:8000"
        (Except.ok []) (Except.ok []) 1 ∧
    get_redirect_urls (fun _ _ => some "/x/") "http://localhost:8000"
        (Except.error PyErr.attributeError) 1 =
      Except.ok (redirectTypeRows (fun _ _ => some "/x/") "http://localhost:8000") ∧
    genericModelLoop (fun _ _ => some "/x/") "http://localhost:8000"
        (fun _ => Except.error PyErr.attributeError) 1
        [⟨"country", "breads", "Country"⟩] ⟨[], 0⟩ =
      genericModelLoop (fun _ _ => some "/x/") "http://localhost:8000"
        (fun _ => Except.ok []) 1 [⟨"country", "breads", "Country"⟩] ⟨[], 0⟩ :=
  fetch_error_keeps_type_rows (fun _ _ => some "/x/") "http://localhost:8000"
    PyErr.attributeError (Except.ok []) [⟨"country", "breads", "Country"⟩]
    1 ⟨[], 0⟩ rfl

/-- C4: with zero existing instances, the redirect collector returns exactly
its index and add rows, and the user collector returns exactly its user add,
user index, group add and group index rows — no instance rows — whenever
those routes resolve. -/
theorem empty_queryset_keeps_type_rows (reg : Reverse) (m : Nat)
    (ui ua uu ux gu gx : String)
    (hri : reg "wagtailredirects:index" [] = some ui)
    (hra : reg "wagtailredirects:add" [] = some ua)
    (hua : reg "wagtailusers_users:add" [] = some uu)
    (hux : reg "wagtailusers_users:index" [] = some ux)
    (hga : reg "wagtailusers_groups:add" [] = some gu)
    (hgx : reg "wagtailusers_groups:index" [] = some gx) :
    get_redirect_urls reg "http://localhost:8000" (Except.ok []) m =
      Except.ok
        [⟨"wagtail.Redirect", "index", "http://localhost:8000" ++ ui⟩,
         ⟨"wagtail.Redirect", "add", "http://localhost:8000" ++ ua⟩] ∧
    get_user_urls reg "http://localhost:8000" (Except.ok []) (Except.ok []) m =
      Except.ok
        [⟨"auth.User", "add", "http://localhost:8000" ++ uu⟩,
         ⟨"auth.User", "index", "http://localhost:8000" ++ ux⟩,
         ⟨"auth.Group", "add", "http://localhost:8000" ++ gu⟩,
         ⟨"auth.Group", "index", "http://localhost:8000" ++ gx⟩] := by
  constructor
  · simp [get_redirect_urls, catchFetch, redirectTypeRows,
      get_redirect_index_url, get_redirect_add_url, hri, hra]
  · simp [get_user_urls, catchFetch, userInstRows, groupInstRows,
      uf_get_user_add_url, uf_get_user_index_url, uf_get_group_add_url,
      uf_get_group_index_url, getCachedUrl, reverseExc, List.lookup,
      hua, hux, hga, hgx, optRow]

/-- C4 witness: a registry resolving all six type-level routes. -/
theorem empty_queryset_keeps_type_rows_witness :
    get_redirect_urls (fun name _ => some ("/" ++ name ++ "/"))
        "http://localhost:8000" (Except.ok []) 4 =
      Except.ok
        [⟨"wagtail.Redirect", "index",
          "http://localhost:8000" ++ "/wagtailredirects:index/"⟩,
         ⟨"wagtail.Redirect", "add",
          "http://localhost:8000" ++ "/wagtailredirects:add/"⟩] ∧
    get_user_urls (fun name _ => some ("/" ++ name ++ "/"))
        "http://localhost:8000" (Except.ok []) (Except.ok []) 4 =
      Except.ok
        [⟨"auth.User", "add",
          "http://localhost:8000" ++ "/wagtailusers_users:add/"⟩,
         ⟨"auth.User", "index",
          "http://localhost:8000" ++ "/wagtailusers_users:index/"⟩,
         ⟨"auth.Group", "add",
          "http://localhost:8000" ++ "/wagtailusers_groups:add/"⟩,
         ⟨"auth.Group", "index",
          "http://localhost:8000" ++ "/wagtailusers_groups:index/"⟩] :=
  empty_queryset_keeps_type_rows (fun name _ => some ("/" ++ name ++ "/")) 4
    "/wagtailredirects:index/" "/wagtailredirects:add/"
    "/wagtailusers_users:add/" "/wagtailusers_users:index/"
    "/wagtailusers_groups:add/" "/wagtailusers_groups:index/"
    rfl rfl rfl rfl rfl rfl

/-- C2: with three redirect records and a configured maximum of 2, the
redirect report queryset is exactly one index row, one add row, and an edit
and a delete row for each of the first two redirects in query order — and
nothing for the third — whenever the redirect routes resolve. -/
theorem redirect_report_three_records_cap_two (reg : Reverse)
    (r1 r2 r3 : Redirect) (ui ua e1 d1 e2 d2 : String)
    (hi : reg "wagtailredirects:index" [] = some ui)
    (ha : reg "wagtailredirects:add" [] = some ua)
    (he1 : reg "wagtailredirects:edit" [r1.id] = some e1)
    (hd1 : reg "wagtailredirects:delete" [r1.id] = some d1)
    (he2 : reg "wagtailredirects:edit" [r2.id] = some e2)
    (hd2 : reg "wagtailredirects:delete" [r2.id] = some d2) :
    redirect_get_queryset ⟨some 2, none, none⟩ reg (Except.ok [r1, r2, r3]) =
      Except.ok
        [⟨1, "wagtail.Redirect", "index", "http://localhost:8000" ++ ui⟩,
         ⟨2, "wagtail.Redirect", "add", "http://localhost:8000" ++ ua⟩,
         ⟨3, redirectInstanceName r1, "edit", "http://localhost:8000" ++ e1⟩,
         ⟨4, redirectInstanceName r1, "delete", "http://localhost:8000" ++ d1⟩,
         ⟨5, redirectInstanceName r2, "edit", "http://localhost:8000" ++ e2⟩,
         ⟨6, redirectInstanceName r2, "delete", "http://localhost:8000" ++ d2⟩] := by
  unfold redirect_get_queryset get_redirect_urls catchFetch
  dsimp only [Option.getD_some]
  rw [show List.take 2 [r1, r2, r3] = [r1, r2] from rfl]
  simp [redirectTypeRows, redirectInstanceRows, get_redirect_index_url,
    get_redirect_add_url, get_redirect_edit_url, get_redirect_delete_url,
    hi, ha, he1, hd1, he2, hd2, withIds]

/-- C2 witness: three concrete redirects against a registry that resolves
all four redirect routes. -/
theorem redirect_report_three_records_cap_two_witness :
    redirect_get_queryset ⟨some 2, none, none⟩
      (fun name args =>
        if name = "wagtailredirects:index" then some "/admin/redirects/"
        else if name = "wagtailredirects:add" then some "/admin/redirects/add/"
        else if name = "wagtailredirects:edit" then
          some ("/admin/redirects/" ++ toString (args.headD 0) ++ "/")
        else if name = "wagtailredirects:delete" then
          some ("/admin/redirects/" ++ toString (args.headD 0) ++ "/delete/")
        else none)
      (Except.ok [⟨1, "/a"⟩, ⟨2, "/b"⟩, ⟨3, "/c"⟩]) =
    Except.ok
      [⟨1, "wagtail.Redirect", "index",
        "http://localhost:8000" ++ "/admin/redirects/"⟩,
       ⟨2, "wagtail.Redirect", "add",
        "http://localhost:8000" ++ "/admin/redirects/add/"⟩,
       ⟨3, redirectInstanceName ⟨1, "/a"⟩, "edit",
        "http://localhost:8000" ++ "/admin/redirects/1/"⟩,
       ⟨4, redirectInstanceName ⟨1, "/a"⟩, "delete",
        "http://localhost:8000" ++ "/admin/redirects/1/delete/"⟩,
       ⟨5, redirectInstanceName ⟨2, "/b"⟩, "edit",
        "http://localhost:8000" ++ "/admin/redirects/2/"⟩,
       ⟨6, redirectInstanceName ⟨2, "/b"⟩, "delete",
        "http://localhost:8000" ++ "/admin/redirects/2/delete/"⟩] :=
  redirect_report_three_records_cap_two
    (fun name args =>
      if name = "wagtailredirects:index" then some "/admin/redirects/"
      else if name = "wagtailredirects:add" then some "/admin/redirects/add/"
      else if name = "wagtailredirects:edit" then
        some ("/admin/redirects/" ++ toString (args.headD 0) ++ "/")
      else if name = "wagtailredirects:delete" then
        some ("/admin/redirects/" ++ toString (args.headD 0) ++ "/delete/")
      else none)
    ⟨1, "/a"⟩ ⟨2, "/b"⟩ ⟨3, "/c"⟩
    "/admin/redirects/" "/admin/redirects/add/"
    "/admin/redirects/1/" "/admin/redirects/1/delete/"
    "/admin/redirects/2/" "/admin/redirects/2/delete/"
    rfl rfl rfl rfl rfl rfl

/-- Every type-level redirect row carries the type-level model name and a
URL of the form base_url ++ path. -/
theorem mem_redirectTypeRows_shape {reg : Reverse} {base_url : String}
    {r : Row} (h : r ∈ redirectTypeRows reg base_url) :
    r.model_name = "wagtail.Redirect" ∧ ∃ u, r.url = base_url ++ u := by
  unfold redirectTypeRows at h
  rcases List.mem_append.1 h with h1 | h1
  · cases hx : get_redirect_index_url reg with
    | some u =>
      rw [hx] at h1
      simp at h1
      subst h1
      exact ⟨rfl, u, rfl⟩
    | none => rw [hx] at h1; simp at h1
  · cases hx : get_redirect_add_url reg with
    | some u =>
      rw [hx] at h1
      simp at h1
      subst h1
      exact ⟨rfl, u, rfl⟩
    | none => rw [hx] at h1; simp at h1

/-- Every instance-level redirect row carries the per-instance model name of
its redirect and a URL of the form base_url ++ path. -/
theorem mem_redirectInstanceRows_shape {reg : Reverse} {base_url : String}
    {rd : Redirect} {r : Row} (h : r ∈ redirectInstanceRows reg base_url rd) :
    r.model_name = redirectInstanceName rd ∧ ∃ u, r.url = base_url ++ u := by
  unfold redirectInstanceRows at h
  rcases List.mem_append.1 h with h1 | h1
  · cases hx : get_redirect_edit_url reg rd.id with
    | some u =>
      rw [hx] at h1
      simp at h1
      subst h1
      exact ⟨rfl, u, rfl⟩
    | none => rw [hx] at h1; simp at h1
  · cases hx : get_redirect_delete_url reg rd.id with
    | some u =>
      rw [hx] at h1
      simp at h1
      subst h1
      exact ⟨rfl, u, rfl⟩
    | none => rw [hx] at h1; simp at h1

/-- Every row of the redirect collector has a URL of the form
base_url ++ path. -/
theorem redirect_rows_shape {reg : Reverse} {base_url : String}
    {fetch : Except PyErr (List Redirect)} {m : Nat} {rows : List Row}
    (h : get_redirect_urls reg base_url fetch m = Except.ok rows) :
    ∀ r ∈ rows, ∃ u, r.url = base_url ++ u := by
  unfold get_redirect_urls at h
  cases hc : catchFetch redirectLoopCaught fetch m with
  | error e => rw [hc] at h; exact absurd h (by simp)
  | ok rs =>
    rw [hc] at h
    dsimp only at h
    injection h with h
    subst h
    intro r hr
    rcases List.mem_append.1 hr with h1 | h1
    · exact (mem_redirectTypeRows_shape h1).2
    · rcases List.mem_flatten.1 h1 with ⟨l, hl, hrl⟩
      rcases List.mem_map.1 hl with ⟨rd, _, rfl⟩
      exact (mem_redirectInstanceRows_shape hrl).2

/-- Each UrlEntry of a wrapped queryset takes its url from some row of the
wrapped list. -/
theorem withIds_mem_url {rows : List Row} {c : Nat} {en : UrlEntry}
    (h : en ∈ withIds c rows) : ∃ r ∈ rows, en.url = r.url := by
  induction rows generalizing c with
  | nil => simp [withIds] at h
  | cons r rs ih =>
    simp only [withIds] at h
    rcases List.mem_cons.1 h with h1 | h1
    · exact ⟨r, List.mem_cons_self r rs, by rw [h1]⟩
    · obtain ⟨r2, hr2, hu⟩ := ih h1
      exact ⟨r2, List.mem_cons_of_mem r hr2, hu⟩

/-- Every type-level site row carries the type-level model name. -/
theorem mem_siteTypeRows_name {reg : Reverse} {base_url : String} {r : Row}
    (h : r ∈ siteTypeRows reg base_url) : r.model_name = "wagtail.Site" := by
  unfold siteTypeRows at h
  rcases List.mem_append.1 h with h1 | h1
  · cases hx : get_site_index_url reg with
    | some u => rw [hx] at h1; simp at h1; subst h1; rfl
    | none => rw [hx] at h1; simp at h1
  · cases hx : get_site_add_url reg with
    | some u => rw [hx] at h1; simp at h1; subst h1; rfl
    | none => rw [hx] at h1; simp at h1

/-- Every instance-level site row carries the per-instance model name of its
site. -/
theorem mem_siteInstanceRows_name {reg : Reverse} {base_url : String}
    {s : Site} {r : Row} (h : r ∈ siteInstanceRows reg base_url s) :
    r.model_name = siteInstanceName s := by
  unfold siteInstanceRows at h
  rcases List.mem_append.1 h with h1 | h1
  · rcases List.mem_append.1 h1 with h2 | h2
    · cases hx : get_site_edit_url reg s.id with
      | some u => rw [hx] at h2; simp at h2; subst h2; rfl
      | none => rw [hx] at h2; simp at h2
    · cases hx : get_site_delete_url reg s.id with
      | some u => rw [hx] at h2; simp at h2; subst h2; rfl
      | none => rw [hx] at h2; simp at h2
  · cases hx : get_site_frontend_url (some s) with
    | some u => rw [hx] at h1; simp at h1; subst h1; rfl
    | none => rw [hx] at h1; simp at h1

/-- A collector result of type-level rows followed by per-instance row
groups mentions at most one distinct non-type model name per processed
instance. -/
theorem capped_card_le {T : Type} (typeRows : List Row) (taken : List T)
    (perInst : T → List Row) (nameOf : T → String) (tn : String)
    (htype : ∀ r ∈ typeRows, r.model_name = tn)
    (hinst : ∀ t, ∀ r ∈ perInst t, r.model_name = nameOf t) :
    (((typeRows ++ (taken.map perInst).flatten).filter
        (fun r => !(r.model_name == tn))).map Row.model_name).toFinset.card ≤
      taken.length := by
  have hsub : ∀ x ∈ (((typeRows ++ (taken.map perInst).flatten).filter
      (fun r => !(r.model_name == tn))).map Row.model_name),
      x ∈ taken.map nameOf := by
    intro x hx
    rcases List.mem_map.1 hx with ⟨r, hr, rfl⟩
    rcases List.mem_filter.1 hr with ⟨hrmem, hp⟩
    rcases List.mem_append.1 hrmem with h1 | h1
    · rw [htype r h1] at hp
      simp at hp
    · rcases List.mem_flatten.1 h1 with ⟨l, hl, hrl⟩
      rcases List.mem_map.1 hl with ⟨t, ht, rfl⟩
      exact List.mem_map.2 ⟨t, ht, (hinst t r hrl).symm⟩
  calc (((typeRows ++ (taken.map perInst).flatten).filter
      (fun r => !(r.model_name == tn))).map Row.model_name).toFinset.card
      ≤ (taken.map nameOf).toFinset.card :=
        Finset.card_le_card (fun x hx =>
          List.mem_toFinset.2 (hsub x (List.mem_toFinset.1 hx)))
    _ ≤ (taken.map nameOf).length := List.toFinset_card_le _
    _ = taken.length := List.length_map _ _

/-- C3 as amended: for every positive configured maximum m, instance rows
are capped by m — the redirect and site collectors mention at most m
distinct instance-level model names, and the user collector renders exactly
as it would on the querysets truncated to their first m records, which hold
at most m instances.  The positivity proviso is forced: at m = 0 the page,
site, snippet and generic viewsets skip the slice and process every
record. -/
theorem instance_rows_capped_positive (reg : Reverse) (base_url : String)
    (db : List Redirect) (db_s : List Site) (db_u db_g : List UserInst)
    (m : Nat) (rows rows_s : List Row)
    (h : get_redirect_urls reg base_url (Except.ok db) m = Except.ok rows)
    (hs : get_site_urls reg base_url (Except.ok db_s) m = Except.ok rows_s)
    (hm : 0 < m) :
    ((rows.filter (fun r => !(r.model_name == "wagtail.Redirect"))).map
        Row.model_name).toFinset.card ≤ m ∧
    ((rows_s.filter (fun r => !(r.model_name == "wagtail.Site"))).map
        Row.model_name).toFinset.card ≤ m ∧
    get_user_urls reg base_url (Except.ok db_u) (Except.ok db_g) m =
      get_user_urls reg base_url (Except.ok (db_u.take m))
        (Except.ok (db_g.take m)) m ∧
    (db_u.take m).length ≤ m := by
  refine ⟨?_, ?_, ?_, List.length_take_le _ _⟩
  · have hrows : rows = redirectTypeRows reg base_url ++
        ((db.take m).map (redirectInstanceRows reg base_url)).flatten := by
      unfold get_redirect_urls catchFetch at h
      dsimp only at h
      injection h with h
      exact h.symm
    subst hrows
    exact le_trans
      (capped_card_le (redirectTypeRows reg base_url) (db.take m)
        (redirectInstanceRows reg base_url) redirectInstanceName
        "wagtail.Redirect"
        (fun r hr => (mem_redirectTypeRows_shape hr).1)
        (fun rd r hr => (mem_redirectInstanceRows_shape hr).1))
      (List.length_take_le _ _)
  · have hrows_s : rows_s = siteTypeRows reg base_url ++
        ((db_s.take m).map (siteInstanceRows reg base_url)).flatten := by
      unfold get_site_urls at hs
      dsimp only at hs
      rw [if_neg (Nat.pos_iff_ne_zero.1 hm)] at hs
      injection hs with hs
      exact hs.symm
    subst hrows_s
    exact le_trans
      (capped_card_le (siteTypeRows reg base_url) (db_s.take m)
        (siteInstanceRows reg base_url) siteInstanceName "wagtail.Site"
        (fun r hr => mem_siteTypeRows_name hr)
        (fun s r hr => mem_siteInstanceRows_name hr))
      (List.length_take_le _ _)
  · simp only [get_user_urls, catchFetch, List.take_take, Nat.min_self]

/-- C3 witness: two redirects, two sites and one user with a cap of 1. -/
theorem instance_rows_capped_positive_witness :
    ((([(⟨"wagtail.Redirect", "index", "http://localhost:8000/x/"⟩ : Row),
        ⟨"wagtail.Redirect", "add", "http://localhost:8000/x/"⟩,
        ⟨"wagtail.Redirect_1_/a", "edit", "http://localhost:8000/x/"⟩,
        ⟨"wagtail.Redirect_1_/a", "delete", "http://localhost:8000/x/"⟩]).filter
          (fun r => !(r.model_name == "wagtail.Redirect"))).map
            Row.model_name).toFinset.card ≤ 1 ∧
    ((([(⟨"wagtail.Site", "index", "http://localhost:8000/x/"⟩ : Row),
        ⟨"wagtail.Site", "add", "http://localhost:8000/x/"⟩,
        ⟨"wagtail.Site_1_example.com", "edit", "http://localhost:8000/x/"⟩,
        ⟨"wagtail.Site_1_example.com", "delete", "http://localhost:8000/x/"⟩,
        ⟨"wagtail.Site_1_example.com", "frontend", "http://example.com/"⟩]).filter
          (fun r => !(r.model_name == "wagtail.Site"))).map
            Row.model_name).toFinset.card ≤ 1 ∧
    get_user_urls (fun _ _ => some "/x/") "http://localhost:8000"
        (Except.ok [⟨1⟩]) (Except.ok []) 1 =
      get_user_urls (fun _ _ => some "/x/") "http://localhost:8000"
        (Except.ok ([(⟨1⟩ : UserInst)].take 1))
        (Except.ok (([] : List UserInst).take 1)) 1 ∧
    ([(⟨1⟩ : UserInst)].take 1).length ≤ 1 :=
  instance_rows_capped_positive (fun _ _ => some "/x/") "http://localhost:8000"
    [⟨1, "/a"⟩, ⟨2, "/b"⟩] [⟨1, "example.com", 80⟩, ⟨2, "other.com", 8000⟩]
    [⟨1⟩] [] 1
    [⟨"wagtail.Redirect", "index", "http://localhost:8000/x/"⟩,
     ⟨"wagtail.Redirect", "add", "http://localhost:8000/x/"⟩,
     ⟨"wagtail.Redirect_1_/a", "edit", "http://localhost:8000/x/"⟩,
     ⟨"wagtail.Redirect_1_/a", "delete", "http://localhost:8000/x/"⟩]
    [⟨"wagtail.Site", "index", "http://localhost:8000/x/"⟩,
     ⟨"wagtail.Site", "add", "http://localhost:8000/x/"⟩,
     ⟨"wagtail.Site_1_example.com", "edit", "http://localhost:8000/x/"⟩,
     ⟨"wagtail.Site_1_example.com", "delete", "http://localhost:8000/x/"⟩,
     ⟨"wagtail.Site_1_example.com", "frontend", "http://example.com/"⟩]
    rfl rfl (by decide)

/-- C3 counterexample: with WAGTAIL_UNVEIL_MAX_INSTANCES configured to 0,
the site report render emits instance-level rows for one distinct instance,
exceeding the configured maximum of 0 — viewsets/site_report.py skips the
slice when max_instances is falsy and processes every record. -/
theorem site_report_uncapped_at_zero :
    site_get_queryset ⟨some 0, none, none⟩
        (fun name _ =>
          if name = "wagtailsites:index" then some "/admin/sites/"
          else if name = "wagtailsites:add" then some "/admin/sites/add/"
          else if name = "wagtailsites:edit" then some "/admin/sites/1/"
          else if name = "wagtailsites:delete" then some "/admin/sites/1/delete/"
          else none)
        (Except.ok [⟨1, "example.com", 80⟩]) =
      Except.ok
        [⟨1, "wagtail.Site", "index", "http://localhost:8000/admin/sites/"⟩,
         ⟨2, "wagtail.Site", "add", "http://localhost:8000/admin/sites/add/"⟩,
         ⟨3, "wagtail.Site_1_example.com", "edit",
          "http://localhost:8000/admin/sites/1/"⟩,
         ⟨4, "wagtail.Site_1_example.com", "delete",
          "http://localhost:8000/admin/sites/1/delete/"⟩,
         ⟨5, "wagtail.Site_1_example.com", "frontend", "http://example.com/"⟩] ∧
    ¬((([(⟨1, "wagtail.Site", "index",
            "http://localhost:8000/admin/sites/"⟩ : UrlEntry),
         ⟨2, "wagtail.Site", "add", "http://localhost:8000/admin/sites/add/"⟩,
         ⟨3, "wagtail.Site_1_example.com", "edit",
          "http://localhost:8000/admin/sites/1/"⟩,
         ⟨4, "wagtail.Site_1_example.com", "delete",
          "http://localhost:8000/admin/sites/1/delete/"⟩,
         ⟨5, "wagtail.Site_1_example.com", "frontend",
          "http://example.com/"⟩]).filter
            (fun en => !(en.model_name == "wagtail.Site"))).map
              UrlEntry.model_name).toFinset.card ≤ 0 :=
  ⟨rfl, by decide⟩

/-- C5 as amended: every entry of the redirect report queryset has a
non-empty url, and every url begins with the base URL the view actually
uses, namely the hardcoded "http://localhost:8000" — not the
settings-configured base URL. -/
theorem report_urls_nonempty_hardcoded_base (s : DjangoSettings)
    (reg : Reverse) (fetch : Except PyErr (List Redirect))
    (entries : List UrlEntry)
    (h : redirect_get_queryset s reg fetch = Except.ok entries) :
    ∀ en ∈ entries, en.url ≠ "" ∧
      ∃ rest, en.url = "http://localhost:8000" ++ rest := by
  unfold redirect_get_queryset at h
  cases hg : get_redirect_urls reg "http://localhost:8000" fetch
      (s.maxInstances.getD 1) with
  | error e => rw [hg] at h; exact absurd h (by simp)
  | ok rows =>
    rw [hg] at h
    dsimp only at h
    injection h with h
    subst h
    intro en hen
    obtain ⟨r, hr, hu⟩ := withIds_mem_url hen
    obtain ⟨u, hru⟩ := redirect_rows_shape hg r hr
    rw [hu, hru]
    refine ⟨?_, u, rfl⟩
    intro he
    have hlen : ("http://localhost:8000" ++ u).length = ("" : String).length :=
      congrArg String.length he
    rw [String.length_append,
      show ("http://localhost:8000" : String).length = 21 from rfl,
      show ("" : String).length = 0 from rfl] at hlen
    omega

/-- C5 amended witness: a registry resolving only the index route, applied
to the single entry of the resulting queryset. -/
theorem report_urls_nonempty_hardcoded_base_witness :
    (⟨1, "wagtail.Redirect", "index",
      "http://localhost:8000/admin/redirects/"⟩ : UrlEntry).url ≠ "" ∧
    ∃ rest, (⟨1, "wagtail.Redirect", "index",
      "http://localhost:8000/admin/redirects/"⟩ : UrlEntry).url =
        "http://localhost:8000" ++ rest :=
  report_urls_nonempty_hardcoded_base ⟨none, none, none⟩
    (fun name _ => if name = "wagtailredirects:index"
      then some "/admin/redirects/" else none)
    (Except.ok [])
    [⟨1, "wagtail.Redirect", "index", "http://localhost:8000/admin/redirects/"⟩]
    rfl
    ⟨1, "wagtail.Redirect", "index", "http://localhost:8000/admin/redirects/"⟩
    (by simp)

/-- C5 counterexample: with a base URL configured in host settings, the
redirect report still prefixes the hardcoded "http://localhost:8000", so
its urls do not begin with the configured base URL. -/
theorem report_url_ignores_configured_base :
    configuredBaseUrl ⟨some 1, some "https://example.com", none⟩ =
      "https://example.com" ∧
    redirect_get_queryset ⟨some 1, some "https://example.com", none⟩
        (fun name _ => if name = "wagtailredirects:index"
          then some "/admin/redirects/" else none)
        (Except.ok []) =
      Except.ok [⟨1, "wagtail.Redirect", "index",
        "http://localhost:8000/admin/redirects/"⟩] ∧
    ¬ ∃ rest : String, "http://localhost:8000/admin/redirects/" =
        "https://example.com" ++ rest := by
  refine ⟨rfl, rfl, ?_⟩
  rintro ⟨rest, h⟩
  have hd : ("http://localhost:8000/admin/redirects/" : String).data =
      ("https://example.com" : String).data ++ rest.data := by
    rw [← String.data_append, h]
  have h5 := congrArg (List.take 5) hd
  rw [List.take_append_of_le_length (by decide)] at h5
  exact absurd h5 (by decide)

end Unveil
